import Mathlib

/-!
Verification development for node-pg-connection-pool.

The repository (src/index.js) is a facade `PgPool` over a generic resource
pool engine, plus a connection factory with bounded retry. Pure and
promise-based code is shallowly embedded: promise outcomes become
`Except`/`PromiseState` values, the engine state becomes an explicit
record that operations transform, and the asynchronous backend is a
parameter describing how each connection attempt or query would settle.

The generic pool engine itself is a dependency not shipped in src/; its
behaviour is modelled from the specification where a claim depends on it.
Facade and factory definitions are translated directly from src/index.js.
-/

namespace PgSpec

/-- Errors observable through the API, carrying the message the code puts
on them. -/
inductive JsError where
  /-- Error("CONN_FAILED") produced by factory.create after the attempt ceiling. -/
  | connFailed : JsError
  /-- TypeError raised when .query is invoked on a value that is not a client. -/
  | typeErrorNoQuery : JsError
  /-- rejection coming from the backend while running a query. -/
  | queryErr (msg : String) : JsError
  /-- TimeoutError produced by the engine when acquireTimeoutMillis elapses. -/
  | timeoutError : JsError
  /-- membership error from release/destroy of a resource the pool does not own. -/
  | membership : JsError
  /-- rejection of a single backend connection attempt. -/
  | connAttemptFailed (msg : String) : JsError
deriving DecidableEq, Repr

/-- Message carried by each error value, as the code sets it. -/
def JsError.message : JsError → String
  | .connFailed => "CONN_FAILED"
  | .typeErrorNoQuery => "client.query is not a function"
  | .queryErr m => m
  | .timeoutError => "ResourceRequest timed out"
  | .membership => "Resource not currently part of this pool"
  | .connAttemptFailed m => m

/-- Clients are opaque handles; identity is all the facade inspects. -/
abbrev Client := Nat

/-- Value the engine hands to a successful engine-level acquire: either a
real client or the Error sentinel the factory resolved with. -/
inductive Yielded where
  | client (c : Client) : Yielded
  | errorVal (e : JsError) : Yielded
deriving DecidableEq, Repr

/-! ## Resource factory (src/index.js lines 75-119)

factory.create wraps the pg connection attempt in retry-as-promised with
max 10 tries, but short-circuits: a closure counter `createAttempts` is
incremented on every try and once it exceeds 3 the function RESOLVES with
an Error("CONN_FAILED") value instead of attempting a connection. The
backend is modelled as a function from the attempt index (1-based) to the
outcome of that connection attempt. -/

/-- Outcome of one retried call inside factory.create: the new counter
value, whether a backend connection attempt was made, and the settled
state of the returned promise for this try (ok value or rejection). -/
def factoryTry (backend : Nat → Except JsError Client)
    (createAttempts : Nat) : Nat × Bool × Except JsError Yielded :=
  let attempts := createAttempts + 1
  if 3 < attempts then
    -- counter reset to 0 for the next try, promise RESOLVES with the sentinel
    (0, false, Except.ok (Yielded.errorVal JsError.connFailed))
  else
    match backend attempts with
    | Except.ok c => (attempts, true, Except.ok (Yielded.client c))
    | Except.error e => (attempts, true, Except.error e)

/-- Retry loop of retry-as-promised: run the function; a resolved promise
ends the loop, a rejected one is retried while tries remain. Returns the
settled outcome together with the total number of backend connection
attempts made. -/
def retryLoop (backend : Nat → Except JsError Client)
    (createAttempts : Nat) (connects : Nat) :
    Nat → Except JsError Yielded × Nat
  | 0 => (Except.error (JsError.connAttemptFailed "retry exhausted"), connects)
  | triesLeft + 1 =>
    match factoryTry backend createAttempts with
    | (counter, didConnect, res) =>
      let connects := connects + (if didConnect then 1 else 0)
      match res with
      | Except.ok v => (Except.ok v, connects)
      | Except.error e =>
        if triesLeft = 0 then (Except.error e, connects)
        else retryLoop backend counter connects triesLeft

/-- factory.create: fresh counter, retry with max 10 tries. Returns the
settled outcome of the creation promise and the number of backend
connection attempts performed. -/
def factoryCreate (backend : Nat → Except JsError Client) :
    Except JsError Yielded × Nat :=
  retryLoop backend 0 0 10

/-! ## factory.destroy (src/index.js lines 101-118)

destroy returns a promise whose executor calls client.end(true, cb) inside
try/catch; the catch only logs (rethrowing is commented out as a known
node-pool limitation), and since the catch never calls resolve the promise
stays pending on a synchronous throw. There is no reject call at all. -/

/-- Behaviour of client.end for the resource being destroyed. -/
inductive EndBehavior where
  /-- client.end accepts the callback and later invokes it. -/
  | succeeds : EndBehavior
  /-- client.end throws synchronously. -/
  | throws (e : JsError) : EndBehavior
deriving DecidableEq, Repr

/-- Settled state of a promise in the model. -/
inductive PromiseState (α : Type) where
  | resolved (a : α) : PromiseState α
  | rejected (e : JsError) : PromiseState α
  | pending : PromiseState α
deriving DecidableEq, Repr

/-- factory.destroy: end succeeding resolves the promise; end throwing is
caught, an error is logged, and the promise never settles. The Bool
records whether the failure was logged. -/
def factoryDestroy : EndBehavior → PromiseState Unit × Bool
  | EndBehavior.succeeds => (PromiseState.resolved (), false)
  | EndBehavior.throws _ => (PromiseState.pending, true)

/-! ## Facade acquire (src/index.js lines 169-180)

pool.acquire resolves the engine acquire, then checks the yielded value
with instanceof Error: an Error sentinel is thrown (rejecting the caller),
anything else is returned unchanged. Engine-level rejections (for example
a TimeoutError) pass through the then untouched. -/

/-- PgPool.prototype.acquire as a function of the settled engine acquire. -/
def PgPool.acquire (engineRes : Except JsError Yielded) : Except JsError Client :=
  match engineRes with
  | Except.error e => Except.error e
  | Except.ok (Yielded.errorVal e) => Except.error e
  | Except.ok (Yielded.client c) => Except.ok c

/-! ## Facade query (src/index.js lines 142-160)

pool.query acquires from the ENGINE (no sentinel check), calls
client.query, and on settlement of that inner promise releases the client
in both the then and the catch branch, rethrowing the error after the
release in the catch. When the yielded value is an Error sentinel,
client.query is not a function: the callback throws a TypeError before any
release handler is installed, so the returned promise rejects and no
release happens. -/

/-- Rows returned by a successful backend query. -/
abbrev QueryResult := List String

/-- Observable events of one pool.query call, in order. -/
inductive QueryEv where
  /-- pool.release(client) was invoked. -/
  | released (c : Client) : QueryEv
  /-- the error was rethrown to the caller. -/
  | raised (e : JsError) : QueryEv
  /-- the query result was returned to the caller. -/
  | returnedRes : QueryEv
deriving DecidableEq, Repr

/-- PgPool.prototype.query as a function of the settled engine acquire and
of how the backend would settle client.query. Returns the settled outcome
of the returned promise and the ordered trace of observable events. -/
def PgPool.query (engineRes : Except JsError Yielded)
    (backendQuery : Except JsError QueryResult) :
    Except JsError QueryResult × List QueryEv :=
  match engineRes with
  | Except.error e => (Except.error e, [])
  | Except.ok (Yielded.errorVal _) =>
    (Except.error JsError.typeErrorNoQuery, [QueryEv.raised JsError.typeErrorNoQuery])
  | Except.ok (Yielded.client c) =>
    match backendQuery with
    | Except.ok r => (Except.ok r, [QueryEv.released c, QueryEv.returnedRes])
    | Except.error e => (Except.error e, [QueryEv.released c, QueryEv.raised e])

/-! ## Generic resource pool engine

Modelled from the spec: the engine (generic-pool) is a dependency not
shipped in src/. Spec section 4.2 describes its state machine: idle and
active resource sets, a stored size counter covering every resource the
pool owns, a pending queue of waiting acquirers, min/max bounds; acquire
pops an idle resource, or creates below max, or queues; release requires
the resource to be an active member and either hands it to a waiter or
marks it idle; a non-member release fails with
"Resource not currently part of this pool" and changes nothing. -/

/-- Pool tuning (poolOptions): floor and cap. -/
structure EngineConfig where
  min : Nat
  max : Nat
deriving DecidableEq, Repr

/-- Modelled from the spec: the engine bookkeeping. `size` is the stored
total-resource counter; `idle` and `active` hold resource identities;
`pending` counts queued acquirers; `nextId` feeds creation. -/
structure EngineState where
  idle : List Nat
  active : List Nat
  size : Nat
  pending : Nat
  nextId : Nat
deriving DecidableEq, Repr

/-- Modelled from the spec: warmed initial state, with the `min` eagerly
created resources all idle. -/
def initState (cfg : EngineConfig) : EngineState :=
  { idle := List.range cfg.min
    active := []
    size := cfg.min
    pending := 0
    nextId := cfg.min }

/-- Result the engine acquire gives the caller. -/
inductive AcquireRes where
  /-- a resource was checked out immediately. -/
  | granted (r : Nat) : AcquireRes
  /-- the pool was exhausted; the caller was queued. -/
  | queued : AcquireRes
deriving DecidableEq, Repr

/-- Modelled from the spec: engine acquire. Pop an idle resource if one
exists; otherwise create (synchronously in this model) when size is below
max; otherwise enqueue the caller as pending. -/
def acquireStep (cfg : EngineConfig) (s : EngineState) :
    EngineState × AcquireRes :=
  match s.idle with
  | r :: rest =>
    ({ s with idle := rest, active := r :: s.active }, AcquireRes.granted r)
  | [] =>
    if s.size < cfg.max then
      ({ s with active := s.nextId :: s.active
                size := s.size + 1
                nextId := s.nextId + 1 }, AcquireRes.granted s.nextId)
    else
      ({ s with pending := s.pending + 1 }, AcquireRes.queued)

/-- Modelled from the spec: engine release. With no argument or a
resource that is not currently active in this pool the call fails with the
membership error and the state is untouched; otherwise the resource is
handed to a waiting acquirer (staying checked out) or returned to idle. -/
def releaseStep (s : EngineState) (r : Option Nat) :
    EngineState × Except JsError Unit :=
  match r with
  | none => (s, Except.error JsError.membership)
  | some r =>
    if r ∈ s.active then
      if 0 < s.pending then
        ({ s with pending := s.pending - 1 }, Except.ok ())
      else
        ({ s with active := s.active.erase r, idle := r :: s.idle },
         Except.ok ())
    else
      (s, Except.error JsError.membership)

/-! ## Facade counters (src/index.js lines 243-263) -/

/-- PgPool.prototype.getPoolSize returns pool.size. -/
def PgPool.getPoolSize (s : EngineState) : Nat := s.size

/-- PgPool.prototype.availableCount returns pool.available, the idle count. -/
def PgPool.availableCount (s : EngineState) : Nat := s.idle.length

/-- PgPool.prototype.pendingCount returns pool.pending. -/
def PgPool.pendingCount (s : EngineState) : Nat := s.pending

/-- PgPool.prototype.release delegates to the engine release
(src/index.js lines 188-190). -/
def PgPool.release (s : EngineState) (r : Option Nat) :
    EngineState × Except JsError Unit :=
  releaseStep s r

/-- Number of resources currently checked out. -/
def activeCount (s : EngineState) : Nat := s.active.length

/-! ## Operation sequences for the invariant claim -/

/-- One caller-driven pool operation. -/
inductive Op where
  | acquire : Op
  | release (r : Nat) : Op
deriving DecidableEq, Repr

/-- State after one operation (results discarded). -/
def applyOp (cfg : EngineConfig) (s : EngineState) : Op → EngineState
  | Op.acquire => (acquireStep cfg s).1
  | Op.release r => (releaseStep s (some r)).1

/-- Whether the operation stays within the configured max: an acquire
finds an idle resource or room to create, and a release returns a
currently checked-out resource. -/
def opOk (cfg : EngineConfig) (s : EngineState) : Op → Bool
  | Op.acquire => !s.idle.isEmpty || decide (s.size < cfg.max)
  | Op.release r => decide (r ∈ s.active)

/-- Whether a whole sequence of operations stays within max from `s`. -/
def validSeq (cfg : EngineConfig) (s : EngineState) : List Op → Bool
  | [] => true
  | op :: rest => opOk cfg s op && validSeq cfg (applyOp cfg s op) rest

/-- State after running a sequence of operations. -/
def runOps (cfg : EngineConfig) (s : EngineState) (ops : List Op) : EngineState :=
  ops.foldl (applyOp cfg) s

/-- Counter invariant of claim C1, phrased through the facade counters. -/
def countersOk (cfg : EngineConfig) (s : EngineState) : Prop :=
  PgPool.availableCount s + activeCount s = PgPool.getPoolSize s ∧
  PgPool.availableCount s ≤ PgPool.getPoolSize s ∧
  PgPool.getPoolSize s ≤ cfg.max

instance (cfg : EngineConfig) (s : EngineState) : Decidable (countersOk cfg s) := by
  unfold countersOk; infer_instance

/-! ## Drain (src/index.js lines 207-209)

Modelled from the spec: the facade drain composes the engine drain with
clear and the floor restoration ("drain then clear then restore floor"),
after which size and available are back at min and the pool keeps serving. -/

/-- Modelled from the spec: drain waits out active resources and clear
destroys every resource, leaving the bookkeeping empty. -/
def drainClear (s : EngineState) : EngineState :=
  { idle := []
    active := []
    size := 0
    pending := 0
    nextId := s.nextId }

/-- Modelled from the spec: the engine re-seeds the pool back to the
configured floor, creating min fresh idle resources. -/
def restoreFloor (cfg : EngineConfig) (s : EngineState) : EngineState :=
  { s with idle := (List.range cfg.min).map (· + s.nextId)
           size := cfg.min
           nextId := s.nextId + cfg.min }

/-- PgPool.prototype.drain: drain, clear, restore the floor. -/
def PgPool.drain (cfg : EngineConfig) (s : EngineState) : EngineState :=
  restoreFloor cfg (drainClear s)

/-! ## Pending request timeout race

Modelled from the spec: a queued acquire carries an outcome channel that
is resolved exactly once, either by the timeout or by a freed resource;
whichever fires first wins and removes the entry, the later path is a
no-op (spec sections 4.2 and 5). -/

/-- Lifecycle of one queued acquire request. -/
inductive ReqState where
  | waiting : ReqState
  | timedOut : ReqState
  | served (r : Nat) : ReqState
deriving DecidableEq, Repr

/-- Events that can reach a queued request. -/
inductive WaitEv where
  /-- its acquireTimeoutMillis timer fired. -/
  | timeout : WaitEv
  /-- a resource freed and was offered to it. -/
  | freed (r : Nat) : WaitEv
deriving DecidableEq, Repr

/-- Modelled from the spec: first resolution wins; an event reaching an
already-resolved request changes nothing. -/
def stepReq : ReqState → WaitEv → ReqState
  | ReqState.waiting, WaitEv.timeout => ReqState.timedOut
  | ReqState.waiting, WaitEv.freed r => ReqState.served r
  | s, _ => s

/-- State of the request after a sequence of events. -/
def runReq (s : ReqState) (evs : List WaitEv) : ReqState :=
  evs.foldl stepReq s

/-- Number of times the caller is resolved along a sequence of events. -/
def resolutionCount : ReqState → List WaitEv → Nat
  | _, [] => 0
  | s, ev :: rest =>
    (if s = ReqState.waiting then 1 else 0) + resolutionCount (stepReq s ev) rest

/-- Whether the request still sits in the pending queue. -/
def inQueue (s : ReqState) : Bool := s = ReqState.waiting

/-- Outcome delivered to the caller, once resolved. -/
def reqOutcome : ReqState → Option (Except JsError Nat)
  | ReqState.waiting => none
  | ReqState.timedOut => some (Except.error JsError.timeoutError)
  | ReqState.served r => some (Except.ok r)

/-! ## Constructor (src/index.js lines 66-73)

The options object is narrowed with lodash.pick to the four documented
keys before anything is read from it; name falls back to a generated
identifier when the picked name is absent or falsy. The random suffix is
a parameter here, per the design note replacing Math.random with an
injected identifier source. -/

/-- Options object passed to the constructor; extras stands for every key
outside the four picked ones. -/
structure JsOptions where
  name : Option String
  pgOptions : Option String
  poolOptions : Option EngineConfig
  logger : Option Nat
  extras : List (String × String)
deriving DecidableEq, Repr

/-- lodash.pick over the four documented keys. -/
def pickOptions (o : JsOptions) : JsOptions :=
  { o with extras := [] }

/-- JavaScript a-or-b on strings: an absent or empty (falsy) left operand
falls through to the default. -/
def jsOr (s : Option String) (d : String) : String :=
  match s with
  | none => d
  | some v => if v = "" then d else v

/-- injectLogger (src/index.js lines 10-22): a missing logger becomes the
no-op logger, written 0 here. -/
def injectLogger (logger : Option Nat) : Nat :=
  logger.getD 0

/-- Constructed pool instance: every field the operations read. -/
structure PgPoolInst where
  name : String
  pgOptions : Option String
  poolOptions : Option EngineConfig
  logger : Nat
deriving DecidableEq, Repr

/-- The PgPool constructor: pick the options, then fill the fields. -/
def mkPgPool (randSuffix : String) (o : JsOptions) : PgPoolInst :=
  let opts := pickOptions o
  { name := jsOr opts.name ("pgPool-" ++ randSuffix)
    pgOptions := opts.pgOptions
    poolOptions := opts.poolOptions
    logger := injectLogger opts.logger }

/-! ## Theorems -/

/-- C2: against a backend whose connection establishment always fails,
factory.create makes exactly 3 connection attempts and then resolves with
the terminal Error whose message is CONN_FAILED, and the facade acquire
turns that resolved sentinel into a rejection with that error. -/
theorem acquire_conn_failed_after_three_attempts
    (backend : Nat → Except JsError Client)
    (hfail : ∀ n, ∃ e, backend n = Except.error e) :
    factoryCreate backend
      = (Except.ok (Yielded.errorVal JsError.connFailed), 3) ∧
    PgPool.acquire (Except.ok (Yielded.errorVal JsError.connFailed))
      = Except.error JsError.connFailed ∧
    JsError.message JsError.connFailed = "CONN_FAILED" := by
  obtain ⟨e1, h1⟩ := hfail 1
  obtain ⟨e2, h2⟩ := hfail 2
  obtain ⟨e3, h3⟩ := hfail 3
  refine ⟨?_, rfl, rfl⟩
  simp [factoryCreate, retryLoop, factoryTry, h1, h2, h3]

/-- C2 witness at a backend that refuses every connection. -/
theorem acquire_conn_failed_after_three_attempts_witness :
    factoryCreate (fun _ => Except.error (JsError.connAttemptFailed "ECONNREFUSED"))
      = (Except.ok (Yielded.errorVal JsError.connFailed), 3) :=
  (acquire_conn_failed_after_three_attempts
    (fun _ => Except.error (JsError.connAttemptFailed "ECONNREFUSED"))
    (fun _ => ⟨_, rfl⟩)).1

/-- C3: the facade acquire rejects with exactly the yielded Error sentinel
and resolves any non-Error client unchanged; an engine-level TimeoutError
rejection passes through, and the two failure kinds are distinct values. -/
theorem acquire_sentinel_check (e : JsError) (c : Client) :
    PgPool.acquire (Except.ok (Yielded.errorVal e)) = Except.error e ∧
    PgPool.acquire (Except.ok (Yielded.client c)) = Except.ok c ∧
    PgPool.acquire (Except.error JsError.timeoutError)
      = Except.error JsError.timeoutError ∧
    JsError.connFailed ≠ JsError.timeoutError := by
  refine ⟨rfl, rfl, rfl, by decide⟩

/-- C4: when query acquires a real client, the client is released exactly
once on both outcomes: on backend success the release happens and the
result is returned, on backend failure the release happens before the
error is re-raised. -/
theorem query_releases_exactly_once (c : Client)
    (bq : Except JsError QueryResult) :
    (PgPool.query (Except.ok (Yielded.client c)) bq).2.count
        (QueryEv.released c) = 1 ∧
    (∀ r, bq = Except.ok r →
      PgPool.query (Except.ok (Yielded.client c)) bq
        = (Except.ok r, [QueryEv.released c, QueryEv.returnedRes])) ∧
    (∀ e, bq = Except.error e →
      PgPool.query (Except.ok (Yielded.client c)) bq
        = (Except.error e, [QueryEv.released c, QueryEv.raised e])) := by
  refine ⟨?_, ?_, ?_⟩
  · cases bq <;> simp [PgPool.query, List.count_cons]
  · rintro r rfl; rfl
  · rintro e rfl; rfl

/-- C4 witness at a failing backend query. -/
theorem query_releases_exactly_once_witness :
    PgPool.query (Except.ok (Yielded.client 0))
        (Except.error (JsError.queryErr "syntax error at or near SEL"))
      = (Except.error (JsError.queryErr "syntax error at or near SEL"),
         [QueryEv.released 0,
          QueryEv.raised (JsError.queryErr "syntax error at or near SEL")]) :=
  (query_releases_exactly_once 0
    (Except.error (JsError.queryErr "syntax error at or near SEL"))).2.2 _ rfl

/-- C8: factory.destroy never rejects, whatever client.end does; a
synchronous end failure is only logged and is not an error outcome. -/
theorem destroy_never_rejects (b : EndBehavior) (e : JsError) :
    (factoryDestroy b).1 ≠ PromiseState.rejected e ∧
    (∀ e2, factoryDestroy (EndBehavior.throws e2)
      = (PromiseState.pending, true)) ∧
    factoryDestroy EndBehavior.succeeds = (PromiseState.resolved (), false) := by
  refine ⟨?_, fun _ => rfl, rfl⟩
  cases b <;> simp [factoryDestroy]

/-- C9: query performs no sentinel check, so when the engine yields the
Error sentinel the .query call on it raises a TypeError, query rejects
with that failure, and no release event occurs for any client. -/
theorem query_sentinel_no_release (e : JsError)
    (bq : Except JsError QueryResult) (c : Client) :
    PgPool.query (Except.ok (Yielded.errorVal e)) bq
      = (Except.error JsError.typeErrorNoQuery,
         [QueryEv.raised JsError.typeErrorNoQuery]) ∧
    (PgPool.query (Except.ok (Yielded.errorVal e)) bq).2.count
        (QueryEv.released c) = 0 := by
  refine ⟨rfl, by simp [PgPool.query]⟩

/-- C6: release with no argument, or with a resource that is not currently
an active member of this pool, rejects with the membership error whose
message matches "Resource not currently part of this pool", and every
counter is unchanged by the failed call. -/
theorem release_nonmember_rejects (s : EngineState) (r : Option Nat)
    (hr : ∀ x, r = some x → x ∉ s.active) :
    PgPool.release s r = (s, Except.error JsError.membership) ∧
    JsError.message JsError.membership
      = "Resource not currently part of this pool" ∧
    PgPool.getPoolSize (PgPool.release s r).1 = PgPool.getPoolSize s ∧
    PgPool.availableCount (PgPool.release s r).1 = PgPool.availableCount s ∧
    PgPool.pendingCount (PgPool.release s r).1 = PgPool.pendingCount s := by
  have hstate : PgPool.release s r = (s, Except.error JsError.membership) := by
    cases r with
    | none => rfl
    | some x =>
      have hx := hr x rfl
      simp [PgPool.release, releaseStep, hx]
  exact ⟨hstate, rfl, by rw [hstate], by rw [hstate], by rw [hstate]⟩

/-- C6 witness: a release with no argument on a freshly warmed pool. -/
theorem release_nonmember_rejects_witness :
    PgPool.release (initState ⟨2, 4⟩) none
      = (initState ⟨2, 4⟩, Except.error JsError.membership) :=
  (release_nonmember_rejects (initState ⟨2, 4⟩) none
    (fun x h => by cases h)).1

/-- C10: the constructor keeps only the keys name, pgOptions, poolOptions
and logger; two option objects that agree on those four keys construct
equal pool instances, so every operation behaves identically whatever
other keys are present. -/
theorem constructor_ignores_extra_keys (rand : String) (o1 o2 : JsOptions)
    (hn : o1.name = o2.name) (hp : o1.pgOptions = o2.pgOptions)
    (hq : o1.poolOptions = o2.poolOptions) (hl : o1.logger = o2.logger) :
    mkPgPool rand o1 = mkPgPool rand o2 := by
  cases o1; cases o2
  simp_all [mkPgPool, pickOptions]

/-- C10 witness: an option object carrying a foreign key constructs the
same instance as the object without it. -/
theorem constructor_ignores_extra_keys_witness :
    mkPgPool "abc123"
        { name := some "testPool", pgOptions := some "postgres://localhost/test_db"
          poolOptions := some ⟨2, 4⟩, logger := none
          extras := [("evictionRunIntervalMillis", "99"), ("foreign", "x")] }
      = mkPgPool "abc123"
        { name := some "testPool", pgOptions := some "postgres://localhost/test_db"
          poolOptions := some ⟨2, 4⟩, logger := none, extras := [] } :=
  constructor_ignores_extra_keys "abc123" _ _ rfl rfl rfl rfl

/-- Helper: events reaching an already resolved request change nothing. -/
theorem runReq_resolved (evs : List WaitEv) (s : ReqState)
    (h : s ≠ ReqState.waiting) : runReq s evs = s := by
  induction evs generalizing s with
  | nil => rfl
  | cons ev rest ih =>
    have hstep : stepReq s ev = s := by
      cases s with
      | waiting => exact absurd rfl h
      | timedOut => cases ev <;> rfl
      | served r => cases ev <;> rfl
    simp [runReq, List.foldl_cons, hstep]
    exact ih s h

/-- Helper: an already resolved request is never resolved again. -/
theorem resolutionCount_resolved (evs : List WaitEv) (s : ReqState)
    (h : s ≠ ReqState.waiting) : resolutionCount s evs = 0 := by
  induction evs generalizing s with
  | nil => rfl
  | cons ev rest ih =>
    have hstep : stepReq s ev = s := by
      cases s with
      | waiting => exact absurd rfl h
      | timedOut => cases ev <;> rfl
      | served r => cases ev <;> rfl
    simp [resolutionCount, h, hstep]
    exact ih s h

/-- C7: when the timeout fires first on a queued acquire, the caller gets
the TimeoutError, the pending entry leaves the queue, and however many
resources free afterwards the caller is resolved exactly once: the later
path is a no-op. -/
theorem timeout_first_resolution_wins (evs : List WaitEv) :
    reqOutcome (runReq ReqState.waiting (WaitEv.timeout :: evs))
      = some (Except.error JsError.timeoutError) ∧
    inQueue (stepReq ReqState.waiting WaitEv.timeout) = false ∧
    resolutionCount ReqState.waiting (WaitEv.timeout :: evs) = 1 := by
  have habs : runReq ReqState.timedOut evs = ReqState.timedOut :=
    runReq_resolved evs ReqState.timedOut (by simp)
  have hcount : resolutionCount ReqState.timedOut evs = 0 :=
    resolutionCount_resolved evs ReqState.timedOut (by simp)
  refine ⟨?_, rfl, ?_⟩
  · show reqOutcome (runReq (stepReq ReqState.waiting WaitEv.timeout) evs) = _
    rw [show stepReq ReqState.waiting WaitEv.timeout = ReqState.timedOut from rfl,
        habs]
    rfl
  · show (if ReqState.waiting = ReqState.waiting then 1 else 0)
        + resolutionCount (stepReq ReqState.waiting WaitEv.timeout) evs = 1
    rw [show stepReq ReqState.waiting WaitEv.timeout = ReqState.timedOut from rfl,
        hcount]
    simp

/-- Helper: acquire on a pool with an idle resource pops it and grants it. -/
theorem acquireStep_idle_cons (cfg : EngineConfig) (s : EngineState)
    (r : Nat) (rest : List Nat) (h : s.idle = r :: rest) :
    acquireStep cfg s
      = ({ s with idle := rest, active := r :: s.active },
         AcquireRes.granted r) := by
  unfold acquireStep
  rw [h]

/-- C5: drain first removes every pooled resource (size drops to 0) and
then restores the floor, leaving size and available both at min; the pool
stays usable, a subsequent acquire being granted a resource. -/
theorem drain_restores_floor (cfg : EngineConfig) (s : EngineState)
    (hmin : 0 < cfg.min) :
    PgPool.getPoolSize (drainClear s) = 0 ∧
    PgPool.availableCount (drainClear s) = 0 ∧
    PgPool.getPoolSize (PgPool.drain cfg s) = cfg.min ∧
    PgPool.availableCount (PgPool.drain cfg s) = cfg.min ∧
    (∃ r s2, acquireStep cfg (PgPool.drain cfg s) = (s2, AcquireRes.granted r)) := by
  have hlen : (PgPool.drain cfg s).idle.length = cfg.min := by
    simp [PgPool.drain, restoreFloor, drainClear]
  refine ⟨rfl, rfl, rfl, hlen, ?_⟩
  have hne : (PgPool.drain cfg s).idle ≠ [] := by
    intro hnil
    rw [hnil] at hlen
    simp at hlen
    omega
  obtain ⟨r, rest, hcons⟩ := List.exists_cons_of_ne_nil hne
  exact ⟨r, _, acquireStep_idle_cons cfg _ r rest hcons⟩

/-- C5 witness at a pool with floor 2 and cap 4. -/
theorem drain_restores_floor_witness :
    PgPool.getPoolSize (PgPool.drain ⟨2, 4⟩ (initState ⟨2, 4⟩)) = 2 ∧
    PgPool.availableCount (PgPool.drain ⟨2, 4⟩ (initState ⟨2, 4⟩)) = 2 :=
  ⟨(drain_restores_floor ⟨2, 4⟩ (initState ⟨2, 4⟩) (by decide)).2.2.1,
   (drain_restores_floor ⟨2, 4⟩ (initState ⟨2, 4⟩) (by decide)).2.2.2.1⟩

/-- Helper: every single operation preserves the counter invariant. -/
theorem countersOk_applyOp (cfg : EngineConfig) (s : EngineState) (op : Op)
    (h : countersOk cfg s) : countersOk cfg (applyOp cfg s op) := by
  obtain ⟨h1, h2, h3⟩ := h
  simp only [PgPool.availableCount, PgPool.getPoolSize, activeCount] at h1 h2 h3
  cases op with
  | acquire =>
    cases hidle : s.idle with
    | cons r rest =>
      have hstep := acquireStep_idle_cons cfg s r rest hidle
      simp only [applyOp, hstep]
      rw [hidle] at h1
      unfold countersOk PgPool.availableCount PgPool.getPoolSize activeCount
      simp only [List.length_cons] at h1 ⊢
      refine ⟨by omega, by omega, h3⟩
    | nil =>
      rw [hidle] at h1
      simp only [List.length_nil] at h1
      simp only [applyOp, acquireStep, hidle]
      by_cases hsz : s.size < cfg.max
      · rw [if_pos hsz]
        unfold countersOk PgPool.availableCount PgPool.getPoolSize activeCount
        simp only [List.length_nil, List.length_cons]
        refine ⟨by omega, by omega, by omega⟩
      · rw [if_neg hsz]
        unfold countersOk PgPool.availableCount PgPool.getPoolSize activeCount
        dsimp only
        simp only [List.length_nil]
        refine ⟨by omega, by omega, h3⟩
  | release r =>
    simp only [applyOp, releaseStep]
    by_cases hmem : r ∈ s.active
    · rw [if_pos hmem]
      by_cases hp : 0 < s.pending
      · rw [if_pos hp]
        exact ⟨h1, h2, h3⟩
      · rw [if_neg hp]
        have hlen : (s.active.erase r).length = s.active.length - 1 :=
          List.length_erase_of_mem hmem
        have hpos : 0 < s.active.length := List.length_pos_of_mem hmem
        unfold countersOk PgPool.availableCount PgPool.getPoolSize activeCount
        simp only [List.length_cons, hlen]
        refine ⟨by omega, by omega, h3⟩
    · rw [if_neg hmem]
      exact ⟨h1, h2, h3⟩

/-- Helper: the invariant survives any whole run of operations. -/
theorem countersOk_runOps (cfg : EngineConfig) (s : EngineState)
    (ops : List Op) (h : countersOk cfg s) :
    countersOk cfg (runOps cfg s ops) := by
  induction ops generalizing s with
  | nil => exact h
  | cons op rest ih =>
    exact ih (applyOp cfg s op) (countersOk_applyOp cfg s op h)

/-- Helper: the warmed initial state satisfies the counter invariant. -/
theorem countersOk_initState (cfg : EngineConfig) (h : cfg.min ≤ cfg.max) :
    countersOk cfg (initState cfg) := by
  unfold countersOk initState PgPool.availableCount PgPool.getPoolSize activeCount
  simp only [List.length_range, List.length_nil]
  exact ⟨by omega, by omega, h⟩

/-- C1: along any acquire/release sequence that stays within the
configured max, after every operation the facade counters satisfy
available + active = size and 0 ≤ available ≤ size ≤ max. -/
theorem pool_counters_invariant (cfg : EngineConfig)
    (hminmax : cfg.min ≤ cfg.max) (ops pre suf : List Op)
    (_hvalid : validSeq cfg (initState cfg) ops = true)
    (_hsplit : ops = pre ++ suf) :
    countersOk cfg (runOps cfg (initState cfg) pre) :=
  countersOk_runOps cfg (initState cfg) pre (countersOk_initState cfg hminmax)

/-- C1 witness: a pool with floor 1 and cap 2, after the acquire of a
two-operation acquire then release sequence. -/
theorem pool_counters_invariant_witness :
    countersOk ⟨1, 2⟩ (runOps ⟨1, 2⟩ (initState ⟨1, 2⟩) [Op.acquire]) :=
  pool_counters_invariant ⟨1, 2⟩ (by decide) [Op.acquire, Op.release 0]
    [Op.acquire] [Op.release 0] (by decide) rfl

end PgSpec
